import Mathlib

/-!
Shallow embedding of the SkipJSDebugger CDP proxy server (cdp_server/go/main.go).

Frames are modelled as lists of characters (WebSocket text frames). Go's
string-search primitives (strings.Contains, strings.Replace with limit 1) are
embedded by an executable first-occurrence search. The channel-backed
MyWSConnection is embedded as an explicit state record; its mutations are the
atomic steps the Go mutex serializes. A Go panic is modelled as the value
none of an Option result. The result of Go's json.Unmarshal is passed to the
web-side handler as an explicit argument of type Option DebuggerPaused,
standing for the parse of the raw frame (none when unmarshalling errors).
-/

/-- A WebSocket text frame, as the character sequence of its payload. -/
abbrev Frame := List Char

/-- Coerce a Lean string literal to a frame. -/
def strL (s : String) : Frame := s.toList

/-- First-occurrence search, embedding the search done by Go's
strings.Contains / strings.Index: when the pattern old occurs in s,
returns the part strictly before the first occurrence together with the part
strictly after it. -/
def splitFirst (old : Frame) : Frame → Option (Frame × Frame)
  | [] => if old.isPrefixOf ([] : Frame) then some ([], []) else none
  | c :: rest =>
    if old.isPrefixOf (c :: rest) then some ([], (c :: rest).drop old.length)
    else (splitFirst old rest).map fun p => (c :: p.1, p.2)

/-- Go strings.Contains(s, old). -/
def containsSub (old s : Frame) : Bool := (splitFirst old s).isSome

/-- Go strings.Replace(s, old, new, 1) for a non-empty pattern: replace the
first occurrence of old in s with nw; leave s unchanged when old does not
occur. -/
def replaceFirst (s old nw : Frame) : Frame :=
  match splitFirst old s with
  | some (a, b) => a ++ nw ++ b
  | none => s

/-! ### The Framed Connection (MyWSConnection) -/

/-- State of a MyWSConnection: the logical name, the buffered contents of the
two channels (msg_sender, msg_reciver), whether each channel has been
close()d, whether the underlying websocket.Conn is still open, and the
is_closed flag guarded by the mutex. -/
structure MyWSConnection where
  name : String
  msg_sender : List Frame
  msg_reciver : List Frame
  sender_open : Bool
  reciver_open : Bool
  sock_open : Bool
  is_closed : Bool
deriving Repr, DecidableEq

/-- NewMyWSConnection: fresh connection with open empty channels. -/
def NewMyWSConnection (name : String) : MyWSConnection :=
  { name := name
    msg_sender := []
    msg_reciver := []
    sender_open := true
    reciver_open := true
    sock_open := true
    is_closed := false }

/-- The is_Closed() accessor (mutex-guarded read of the flag). -/
def MyWSConnection.is_Closed (c : MyWSConnection) : Bool := c.is_closed

/-- Go close(ch): closing an open channel closes it; closing an already
closed channel panics (none). -/
def chanClose (isOpen : Bool) : Option Bool :=
  if isOpen then some false else none

/-- MyWSConnection.Close, instrumented with the number of close() calls
performed on msg_sender and on msg_reciver by this invocation; none would
mean a panic inside Close. The whole body runs under the connection mutex,
so each invocation is one atomic step. c.conn.Close() runs unconditionally
(sock_open := false); the two channels are closed only when the flag was
still false. -/
def MyWSConnection.Close (c : MyWSConnection) : Option (MyWSConnection × Nat × Nat) :=
  if c.is_closed then
    some ({ c with sock_open := false }, 0, 0)
  else
    match chanClose c.sender_open, chanClose c.reciver_open with
    | some s, some r =>
      some ({ c with
                sender_open := s
                reciver_open := r
                is_closed := true
                sock_open := false }, 1, 1)
    | _, _ => none

/-- MyWSConnection.WriteMessage: fails with a closed-connection error when
the flag is set, otherwise enqueues the frame on the msg_sender channel. -/
def MyWSConnection.WriteMessage (c : MyWSConnection) (msg : Frame) :
    Except String MyWSConnection :=
  if c.is_Closed then Except.error (c.name ++ " connection closed")
  else Except.ok { c with msg_sender := c.msg_sender ++ [msg] }

/-- First half of MyWSConnection.ReadMessage, evaluated in the state at call
time: the is_Closed() check. some e means ReadMessage returns (nil, e)
immediately; none means ReadMessage proceeds to receive from msg_reciver. -/
def read_precheck (c : MyWSConnection) : Option String :=
  if c.is_Closed then some (c.name ++ " connection closed") else none

/-- Outcome of the channel receive inside ReadMessage, evaluated in the
state at the moment the receive completes (other tasks, e.g. Close, may have
run since the precheck). -/
inductive RecvOutcome where
  /-- The channel is empty and still open: the receive blocks. -/
  | blocked
  /-- The receive completes, yielding msg and the successor state; a receive
  on a closed empty channel yields the zero value nil (the empty frame)
  without any error. -/
  | recv (msg : Frame) (c : MyWSConnection)
deriving Repr, DecidableEq

/-- Second half of MyWSConnection.ReadMessage: msg = <-c.msg_reciver. -/
def recv_step (c : MyWSConnection) : RecvOutcome :=
  match c.msg_reciver with
  | m :: rest => RecvOutcome.recv m { c with msg_reciver := rest }
  | [] => if c.reciver_open then RecvOutcome.blocked else RecvOutcome.recv [] c

/-! ### CDP frame shapes used by json.Unmarshal -/

/-- One element of params.callFrames, keeping only the field the server
reads. -/
structure CallFrame where
  functionName : String
deriving Repr, DecidableEq

/-- The params of a Debugger.paused event, as the Go struct
DebuggerPausedParams. -/
structure DebuggerPausedParams where
  reason : String
  hitBreakpoints : List String
  callFrames : List CallFrame
deriving Repr, DecidableEq

/-- The Go struct DebuggerPaused. -/
structure DebuggerPaused where
  method : String
  params : DebuggerPausedParams
deriving Repr, DecidableEq

/-! ### The server's literal payloads -/

/-- Compiled-in attribution string (var Author in main.go). -/
def Author : String := "From 52pj"

/-- The injected step-out command literal. -/
def stepOutMsg : Frame := strL "\x7b\"id\":0,\"method\":\"Debugger.stepOut\",\"params\":\x7b\x7d\x7d"

/-- The injected resume command literal. -/
def resumeMsg : Frame :=
  strL "\x7b\"id\":0,\"method\":\"Debugger.resume\",\"params\":\x7b\"terminateOnResume\":false\x7d\x7d"

/-- The echo-drop pattern: the substring checked by handle_msg_from_web. -/
def idZeroPat : Frame := strL "\"id\":0"

/-- The substring triggering the cosmetic rewrite in
handle_msg_from_devtools. -/
def overlayPat : Frame := strL "Overlay.setPausedInDebuggerMessage"

/-- The literal replaced by the cosmetic rewrite. -/
def pausedPat : Frame := strL "Paused in debugger"

/-- The replacement written by the cosmetic rewrite. -/
def surpriseStr : Frame := strL ("Paused in debugger - Surprise " ++ Author)

/-! ### Message handlers -/

/-- process_debugger_paused from main.go, parameterized by the configured
MYDEBUGGER_NAME. Result none models the Go panic: params.CallFrames[0] is
evaluated without a bounds check, so an empty callFrames list is an index
out of range. Otherwise some (handled, c) returns the Go bool together with
the state of the \_from connection (updated when an injected command was
enqueued; on a WriteMessage error the state is unchanged and handled is
false). -/
def process_debugger_paused (MYDEBUGGER_NAME : String) (_from : MyWSConnection)
    (params : DebuggerPausedParams) : Option (Bool × MyWSConnection) :=
  if ¬(params.reason = "other" ∧ params.hitBreakpoints = []) then
    some (false, _from)
  else
    match params.callFrames with
    | [] => none
    | f0 :: _ =>
      if f0.functionName = MYDEBUGGER_NAME then
        match _from.WriteMessage stepOutMsg with
        | Except.error _ => some (false, _from)
        | Except.ok c' => some (true, c')
      else
        match _from.WriteMessage resumeMsg with
        | Except.error _ => some (false, _from)
        | Except.ok c' => some (true, c')

/-- handle_msg_from_web from main.go. raw is the frame's bytes; parsed is
the result of Go's json.Unmarshal of raw into DebuggerPaused (none when
unmarshalling errors). Result none models a panic propagating out of
process_debugger_paused; some (data, is_ok, c) returns the Go pair
(data = none models the nil byte slice) together with the state of the
\_from (web-side) connection. -/
def handle_msg_from_web (MYDEBUGGER_NAME : String) (_from : MyWSConnection)
    (raw : Frame) (parsed : Option DebuggerPaused) :
    Option (Option Frame × Bool × MyWSConnection) :=
  if containsSub idZeroPat raw then
    some (none, false, _from)
  else
    match parsed with
    | some cdp_res =>
      if cdp_res.method = "Debugger.paused" then
        match process_debugger_paused MYDEBUGGER_NAME _from cdp_res.params with
        | none => none
        | some (true, c') => some (none, false, c')
        | some (false, c') => some (some raw, true, c')
      else some (some raw, true, _from)
    | none => some (some raw, true, _from)

/-- handle_msg_from_devtools from main.go. The body never touches \_from
(no injection on this direction), so the connection state is returned
unchanged; the Go pair (data, is_ok) is always (msg possibly rewritten,
true). -/
def handle_msg_from_devtools (_from : MyWSConnection) (msg : Frame) :
    Frame × Bool × MyWSConnection :=
  if containsSub overlayPat msg then
    (replaceFirst msg pausedPat surpriseStr, true, _from)
  else (msg, true, _from)

/-! ### Acceptor and the CONNECTION_POOL registry -/

/-- The keys of CONNECTION_POOL that are bound to a non-nil pair. -/
abbrev ConnectionPool := List String

/-- Whether upgrader.Upgrade succeeds for a request. -/
inductive UpgradeOutcome where
  | ok
  | err
deriving Repr, DecidableEq

/-- How one invocation of websocket_handler ends. -/
inductive AcceptorResult where
  /-- Early return before upgrading: the path was already in the pool. -/
  | declined
  /-- log.Fatal on upgrade error: os.Exit(1), the entire process
  terminates, taking every live session and the listener with it. -/
  | processExit
  /-- go start_transmiter_task(devtools, path) was spawned. -/
  | sessionSpawned
deriving Repr, DecidableEq

/-- websocket_handler from main.go: decline when CONNECTION_POOL[path] is
non-nil; on upgrade failure call log.Fatal; otherwise spawn the session. -/
def websocket_handler (pool : ConnectionPool) (path : String)
    (up : UpgradeOutcome) : AcceptorResult :=
  if pool.contains path then AcceptorResult.declined
  else
    match up with
    | UpgradeOutcome.err => AcceptorResult.processExit
    | UpgradeOutcome.ok => AcceptorResult.sessionSpawned

/-- The statements of main.go that touch CONNECTION_POOL after its
initialization: websocket_handler only reads it, and start_transmiter_task
deletes the path entry at teardown. No statement in the program assigns
CONNECTION_POOL[path]. -/
inductive PoolOp where
  /-- One run of websocket_handler: reads the pool, never writes it. -/
  | handle_request (path : String) (up : UpgradeOutcome)
  /-- The delete(CONNECTION_POOL, path) at the end of
  start_transmiter_task. -/
  | teardown (path : String)
deriving Repr, DecidableEq

/-- Effect of one pool-touching statement on the pool. -/
def pool_step (pool : ConnectionPool) : PoolOp → ConnectionPool
  | PoolOp.handle_request _ _ => pool
  | PoolOp.teardown p => pool.erase p

/-- The pool reached from make(ConnectionPool) after any sequence of the
program's pool operations. -/
def run_pool (ops : List PoolOp) : ConnectionPool :=
  ops.foldl pool_step []

/-- The request path used in concrete scenarios below. -/
def devPath : String := "/devtools/page/x"

/-! ### Correctness of the first-occurrence search -/

set_option maxRecDepth 1000000

/-- Soundness: a successful search decomposes the string around an
occurrence of the pattern. -/
theorem splitFirst_sound {old : Frame} :
    ∀ {s a b : Frame}, splitFirst old s = some (a, b) → s = a ++ old ++ b := by
  intro s
  induction s with
  | nil =>
    intro a b h
    unfold splitFirst at h
    split at h
    · rename_i hp
      rw [List.isPrefixOf_iff_prefix, List.prefix_nil] at hp
      simp only [Option.some.injEq, Prod.mk.injEq] at h
      simp [hp, h.1.symm, h.2.symm]
    · exact absurd h (by simp)
  | cons c rest ih =>
    intro a b h
    unfold splitFirst at h
    split at h
    · rename_i hp
      rw [List.isPrefixOf_iff_prefix] at hp
      obtain ⟨t, ht⟩ := hp
      simp only [Option.some.injEq, Prod.mk.injEq] at h
      rw [← h.1, ← h.2, ← ht, List.drop_left]
      simp
    · rename_i hp
      cases hsp : splitFirst old rest with
      | none => rw [hsp] at h; exact absurd h (by simp)
      | some p =>
        rw [hsp] at h
        simp only [Option.map_some', Option.some.injEq, Prod.mk.injEq] at h
        rw [← h.1, ← h.2]
        have := ih hsp
        simp [this]

/-- Minimality: a successful search finds the earliest occurrence of the
pattern. -/
theorem splitFirst_min {old : Frame} :
    ∀ {s a b a2 b2 : Frame}, splitFirst old s = some (a, b) →
      s = a2 ++ old ++ b2 → a.length ≤ a2.length := by
  intro s
  induction s with
  | nil =>
    intro a b a2 b2 h h2
    unfold splitFirst at h
    split at h
    · simp only [Option.some.injEq, Prod.mk.injEq] at h
      rw [← h.1]
      simp
    · exact absurd h (by simp)
  | cons c rest ih =>
    intro a b a2 b2 h h2
    unfold splitFirst at h
    split at h
    · simp only [Option.some.injEq, Prod.mk.injEq] at h
      rw [← h.1]
      simp
    · rename_i hp
      cases hsp : splitFirst old rest with
      | none => rw [hsp] at h; exact absurd h (by simp)
      | some p =>
        obtain ⟨a', b'⟩ := p
        rw [hsp] at h
        simp only [Option.map_some', Option.some.injEq, Prod.mk.injEq] at h
        cases a2 with
        | nil =>
          exfalso
          apply hp
          rw [List.isPrefixOf_iff_prefix]
          simp only [List.nil_append] at h2
          rw [h2]
          exact List.prefix_append old b2
        | cons c2 a2' =>
          simp only [List.cons_append, List.cons.injEq] at h2
          have hle := ih hsp h2.2
          rw [← h.1]
          simp only [List.length_cons]
          omega

/-- A prefix occurrence makes the search succeed immediately. -/
theorem splitFirst_isSome_of_isPrefixOf {old s : Frame}
    (h : old.isPrefixOf s = true) : (splitFirst old s).isSome = true := by
  cases s with
  | nil => simp [splitFirst, h]
  | cons c rest => simp [splitFirst, h]

/-- Completeness: the search succeeds whenever the pattern occurs. -/
theorem splitFirst_complete (old : Frame) :
    ∀ (a b : Frame), (splitFirst old (a ++ old ++ b)).isSome = true := by
  intro a
  induction a with
  | nil =>
    intro b
    apply splitFirst_isSome_of_isPrefixOf
    rw [List.isPrefixOf_iff_prefix]
    exact List.prefix_append old b
  | cons c a' ih =>
    intro b
    show (splitFirst old (c :: (a' ++ old ++ b))).isSome = true
    unfold splitFirst
    split
    · simp
    · have hb := ih b
      cases hsp : splitFirst old (a' ++ old ++ b) with
      | none => rw [hsp] at hb; simp at hb
      | some p => simp [hsp]

/-! ### Claim C1 -/

/-- Claim C1 (code evaluation): the registry is never populated. The only
statements of main.go that mutate CONNECTION_POOL after make() are the
delete at teardown — no statement ever assigns CONNECTION_POOL[path] — so
every reachable pool is empty, and after a first client was accepted on
devPath (its session live), a second request on the same path is not
declined: websocket_handler spawns a second session instead. This
contradicts the claimed single-pair invariant. -/
theorem C1_registry_never_populated :
    (∀ ops : List PoolOp, run_pool ops = []) ∧
    websocket_handler (run_pool [PoolOp.handle_request devPath UpgradeOutcome.ok])
        devPath UpgradeOutcome.ok = AcceptorResult.sessionSpawned := by
  have hempty : ∀ (ops : List PoolOp) (pool : ConnectionPool), pool = [] →
      ops.foldl pool_step pool = [] := by
    intro ops
    induction ops with
    | nil => intro pool h; exact h
    | cons op rest ih =>
      intro pool h
      subst h
      cases op with
      | handle_request p u => exact ih [] rfl
      | teardown p =>
        show rest.foldl pool_step (List.erase [] p) = []
        rw [List.erase_nil]
        exact ih [] rfl
  exact ⟨fun ops => hempty ops [] rfl, by decide⟩

/-! ### Claim C4 -/

/-- Claim C4 (code evaluation): when the pool has no entry for the path and
the WebSocket upgrade handshake fails, websocket_handler reaches
log.Fatal, i.e. os.Exit(1): the entire process terminates, taking every
other live session, the registry and the listener with it — not just the
one acceptor task as claimed. -/
theorem C4_upgrade_failure_exits_process :
    websocket_handler [] devPath UpgradeOutcome.err = AcceptorResult.processExit := by
  rfl

/-! ### Claim C5 -/

/-- Claim C5 (counterexample): a parsed Debugger.paused frame with reason
"other", empty hitBreakpoints and an empty callFrames list makes
process_debugger_paused evaluate params.CallFrames[0] out of bounds: the
handler panics (modelled by none), refuting the claimed totality. -/
theorem C5_counterexample :
    process_debugger_paused "lovedebug" (NewMyWSConnection "web")
      { reason := "other", hitBreakpoints := [], callFrames := [] } = none := by
  rfl

/-- Claim C5 (amended): for every parsed Debugger.paused frame with reason
"other", empty hitBreakpoints and a NON-EMPTY callFrames list, the access
to callFrames[0].functionName is safe and the paused-handling rule
terminates normally (no panic); the same holds for any frame that fails the
is_js_debugger test. -/
theorem C5_totality_amended (name : String) (c : MyWSConnection)
    (params : DebuggerPausedParams) (h : params.callFrames ≠ []) :
    (process_debugger_paused name c params).isSome = true := by
  unfold process_debugger_paused
  split
  · simp
  · cases hcf : params.callFrames with
    | nil => exact absurd hcf h
    | cons f0 rest =>
      cases hw : c.WriteMessage stepOutMsg <;>
        cases hw2 : c.WriteMessage resumeMsg <;>
          by_cases hf : f0.functionName = name <;>
            simp [hf, hw, hw2]

/-- Claim C5 amended, witnessed at a concrete trap frame with one call
frame: the rule terminates normally. -/
theorem C5_totality_witness :
    ([({ functionName := "trap_xyz" } : CallFrame)] ≠ ([] : List CallFrame)) ∧
    (process_debugger_paused "lovedebug" (NewMyWSConnection "web")
      { reason := "other", hitBreakpoints := [],
        callFrames := [{ functionName := "trap_xyz" }] }).isSome = true :=
  ⟨by simp, C5_totality_amended "lovedebug" (NewMyWSConnection "web")
      { reason := "other", hitBreakpoints := [],
        callFrames := [{ functionName := "trap_xyz" }] } (by simp)⟩

/-! ### Claim C6 -/

/-- Claim C6: every web-to-devtools frame containing the substring "id":0
is dropped — handle_msg_from_web returns (nil, forward=false) with the
web-side connection untouched — and this happens uniformly in the parse
oracle's result, i.e. before any JSON parsing is consulted; moreover both
frames the proxy originates toward the upstream (Debugger.stepOut and
Debugger.resume) contain that substring, so their upstream responses,
which echo id 0, are never forwarded to the DevTools client. -/
theorem C6_echo_drop :
    (∀ (name : String) (c : MyWSConnection) (raw : Frame)
        (parsed : Option DebuggerPaused),
        containsSub idZeroPat raw = true →
        handle_msg_from_web name c raw parsed = some (none, false, c)) ∧
    containsSub idZeroPat stepOutMsg = true ∧
    containsSub idZeroPat resumeMsg = true := by
  refine ⟨?_, by decide, by decide⟩
  intro name c raw parsed h
  simp [handle_msg_from_web, h]

/-- A concrete upstream response to an injected command. -/
def echoRaw : Frame := strL "\x7b\"id\":0,\"result\":\x7b\x7d\x7d"

/-- Claim C6, witnessed on a concrete response echo: the frame contains
"id":0 and is dropped whatever the parse result is. -/
theorem C6_echo_drop_witness :
    containsSub idZeroPat echoRaw = true ∧
    handle_msg_from_web "lovedebug" (NewMyWSConnection "devtools") echoRaw none =
      some (none, false, NewMyWSConnection "devtools") :=
  ⟨by decide,
   C6_echo_drop.1 "lovedebug" (NewMyWSConnection "devtools") echoRaw none (by decide)⟩

/-! ### Concrete frames and connection states used by several claims -/

/-- The state a fresh connection reaches after its first Close: both
channels closed, socket closed, flag set. -/
def close1 (c : MyWSConnection) : MyWSConnection :=
  { c with
      sender_open := false
      reciver_open := false
      is_closed := true
      sock_open := false }

/-- A trap pause event, exactly scenario 1 of the spec. Go's json.Unmarshal
of these bytes into DebuggerPaused succeeds and yields trapFrameParsed. -/
def trapFrameRaw : Frame :=
  strL "\x7b\"method\":\"Debugger.paused\",\"params\":\x7b\"reason\":\"other\",\"hitBreakpoints\":[],\"callFrames\":[\x7b\"functionName\":\"trap_xyz\"\x7d]\x7d\x7d"

/-- The parse of trapFrameRaw. -/
def trapFrameParsed : DebuggerPaused :=
  { method := "Debugger.paused"
    params := { reason := "other", hitBreakpoints := [],
                callFrames := [{ functionName := "trap_xyz" }] } }

/-- A sentinel pause event, exactly scenario 2 of the spec. Go's
json.Unmarshal of these bytes into DebuggerPaused succeeds and yields
sentinelFrameParsed. -/
def sentinelFrameRaw : Frame :=
  strL "\x7b\"method\":\"Debugger.paused\",\"params\":\x7b\"reason\":\"other\",\"hitBreakpoints\":[],\"callFrames\":[\x7b\"functionName\":\"lovedebug\"\x7d,\x7b\"functionName\":\"userCode\"\x7d]\x7d\x7d"

/-- The parse of sentinelFrameRaw. -/
def sentinelFrameParsed : DebuggerPaused :=
  { method := "Debugger.paused"
    params := { reason := "other", hitBreakpoints := [],
                callFrames := [{ functionName := "lovedebug" },
                               { functionName := "userCode" }] } }

/-- A web-side connection that has been closed. -/
def webClosed : MyWSConnection := close1 (NewMyWSConnection "web")

/-! ### Claim C2 -/

/-- Claim C2 (counterexample): the trap-resume rule as claimed fails when
the web-side connection is closed — WriteMessage of the injected resume
command errors, process_debugger_paused returns handled=false, and the
qualifying Debugger.paused frame is forwarded to DevTools (is_ok = true)
with nothing written to the web side, instead of being dropped with the
resume command written. -/
theorem C2_counterexample :
    handle_msg_from_web "lovedebug" webClosed trapFrameRaw (some trapFrameParsed) =
      some (some trapFrameRaw, true, webClosed) ∧
    webClosed.msg_sender = [] ∧ webClosed.is_closed = true := by
  decide

/-- Claim C2 (amended): for every web-to-devtools frame that does not
contain the substring "id":0, whose parse is a Debugger.paused event with
reason "other", empty hitBreakpoints, and whose first call frame's
functionName differs from the configured debugger name, and while the
web-side connection is not closed, the handler drops the frame
(returns nil, forward=false) and enqueues exactly the frame
Debugger.resume with terminateOnResume:false and id 0 on the web-side
connection. -/
theorem C2_trap_resume_amended
    (name : String) (c : MyWSConnection) (raw : Frame) (dp : DebuggerPaused)
    (f0 : CallFrame) (rest : List CallFrame)
    (hid : containsSub idZeroPat raw = false)
    (hopen : c.is_closed = false)
    (hm : dp.method = "Debugger.paused")
    (hr : dp.params.reason = "other")
    (hb : dp.params.hitBreakpoints = [])
    (hcf : dp.params.callFrames = f0 :: rest)
    (hne : ¬ f0.functionName = name) :
    handle_msg_from_web name c raw (some dp) =
      some (none, false, { c with msg_sender := c.msg_sender ++ [resumeMsg] }) := by
  unfold handle_msg_from_web process_debugger_paused MyWSConnection.WriteMessage
    MyWSConnection.is_Closed
  simp [hid, hopen, hm, hr, hb, hcf, hne]

/-- Claim C2 amended, witnessed at the spec's literal trap scenario against
an open web connection: the frame is dropped and exactly the resume command
is enqueued. -/
theorem C2_trap_resume_witness :
    handle_msg_from_web "lovedebug" (NewMyWSConnection "web") trapFrameRaw
        (some trapFrameParsed) =
      some (none, false, { NewMyWSConnection "web" with msg_sender := [resumeMsg] }) :=
  C2_trap_resume_amended "lovedebug" (NewMyWSConnection "web") trapFrameRaw
    trapFrameParsed { functionName := "trap_xyz" } [] (by decide) rfl rfl rfl rfl rfl
    (by decide)

/-! ### Claim C3 -/

/-- Claim C3 (counterexample): the sentinel step-out rule as claimed fails
when the web-side connection is closed — WriteMessage of the injected
step-out command errors and the qualifying frame is forwarded instead of
dropped, with nothing written to the web side. -/
theorem C3_counterexample :
    handle_msg_from_web "lovedebug" webClosed sentinelFrameRaw
        (some sentinelFrameParsed) =
      some (some sentinelFrameRaw, true, webClosed) ∧
    webClosed.msg_sender = [] := by
  decide

/-- Claim C3 (amended): for every web-to-devtools frame that does not
contain the substring "id":0, whose parse is a Debugger.paused event with
reason "other", empty hitBreakpoints, and whose first call frame's
functionName equals the configured debugger name, and while the web-side
connection is not closed, the handler drops the frame and enqueues exactly
the frame Debugger.stepOut with id 0 on the web-side connection. -/
theorem C3_step_out_amended
    (name : String) (c : MyWSConnection) (raw : Frame) (dp : DebuggerPaused)
    (f0 : CallFrame) (rest : List CallFrame)
    (hid : containsSub idZeroPat raw = false)
    (hopen : c.is_closed = false)
    (hm : dp.method = "Debugger.paused")
    (hr : dp.params.reason = "other")
    (hb : dp.params.hitBreakpoints = [])
    (hcf : dp.params.callFrames = f0 :: rest)
    (heq : f0.functionName = name) :
    handle_msg_from_web name c raw (some dp) =
      some (none, false, { c with msg_sender := c.msg_sender ++ [stepOutMsg] }) := by
  unfold handle_msg_from_web process_debugger_paused MyWSConnection.WriteMessage
    MyWSConnection.is_Closed
  simp [hid, hopen, hm, hr, hb, hcf, heq]

/-- Claim C3 amended, witnessed at the spec's literal sentinel scenario
against an open web connection: the frame is dropped and exactly the
step-out command is enqueued. -/
theorem C3_step_out_witness :
    handle_msg_from_web "lovedebug" (NewMyWSConnection "web") sentinelFrameRaw
        (some sentinelFrameParsed) =
      some (none, false, { NewMyWSConnection "web" with msg_sender := [stepOutMsg] }) :=
  C3_step_out_amended "lovedebug" (NewMyWSConnection "web") sentinelFrameRaw
    sentinelFrameParsed { functionName := "lovedebug" } [{ functionName := "userCode" }]
    (by decide) rfl rfl rfl rfl rfl rfl

/-! ### Claim C9 -/

/-- Claim C9: when the web-side connection is closed so that writing the
synthetic Debugger.stepOut or Debugger.resume command fails, the
paused-handling rule returns handled=false and the handler forwards the
original Debugger.paused frame to DevTools (data = the original frame,
forward=true) rather than silently dropping it; this holds in both the
sentinel and the trap branch. -/
theorem C9_inject_failure_fallback
    (name : String) (c : MyWSConnection) (raw : Frame) (dp : DebuggerPaused)
    (f0 : CallFrame) (rest : List CallFrame)
    (hclosed : c.is_closed = true)
    (hid : containsSub idZeroPat raw = false)
    (hm : dp.method = "Debugger.paused")
    (hr : dp.params.reason = "other")
    (hb : dp.params.hitBreakpoints = [])
    (hcf : dp.params.callFrames = f0 :: rest) :
    process_debugger_paused name c dp.params = some (false, c) ∧
    handle_msg_from_web name c raw (some dp) = some (some raw, true, c) := by
  unfold handle_msg_from_web process_debugger_paused MyWSConnection.WriteMessage
    MyWSConnection.is_Closed
  by_cases hf : f0.functionName = name <;> simp [hid, hclosed, hm, hr, hb, hcf, hf]

/-- A second closed web-side connection, for the C9 witness. -/
def web2Closed : MyWSConnection := close1 (NewMyWSConnection "web2")

/-- Claim C9, witnessed at the concrete trap frame against a closed
connection: handled=false and the frame is forwarded. -/
theorem C9_inject_failure_witness :
    process_debugger_paused "lovedebug" web2Closed trapFrameParsed.params =
      some (false, web2Closed) ∧
    handle_msg_from_web "lovedebug" web2Closed trapFrameRaw (some trapFrameParsed) =
      some (some trapFrameRaw, true, web2Closed) :=
  C9_inject_failure_fallback "lovedebug" web2Closed trapFrameRaw trapFrameParsed
    { functionName := "trap_xyz" } [] rfl (by decide) rfl rfl rfl rfl

/-! ### Claim C7 -/

/-- Claim C7: the devtools-to-web handler always returns forward=true and
leaves the source connection untouched (no synthetic frames are written
back); a frame without the Overlay.setPausedInDebuggerMessage substring is
returned byte-for-byte unchanged; a frame with that substring but without
"Paused in debugger" is also returned unchanged; and when both occur, the
search finds the earliest occurrence of "Paused in debugger" — the prefix a
is sound and minimal — and exactly that occurrence is replaced by
"Paused in debugger - Surprise From 52pj", the suffix b (containing any
later occurrences) being copied verbatim. -/
theorem C7_devtools_handler :
    (∀ (c : MyWSConnection) (msg : Frame),
        (handle_msg_from_devtools c msg).2.1 = true ∧
        (handle_msg_from_devtools c msg).2.2 = c) ∧
    (∀ (c : MyWSConnection) (msg : Frame), containsSub overlayPat msg = false →
        handle_msg_from_devtools c msg = (msg, true, c)) ∧
    (∀ (c : MyWSConnection) (msg : Frame), containsSub overlayPat msg = true →
        containsSub pausedPat msg = false →
        handle_msg_from_devtools c msg = (msg, true, c)) ∧
    (∀ (c : MyWSConnection) (msg a b : Frame), containsSub overlayPat msg = true →
        splitFirst pausedPat msg = some (a, b) →
        msg = a ++ pausedPat ++ b ∧
        (∀ a2 b2 : Frame, msg = a2 ++ pausedPat ++ b2 → a.length ≤ a2.length) ∧
        handle_msg_from_devtools c msg = (a ++ surpriseStr ++ b, true, c)) := by
  refine ⟨?_, ?_, ?_, ?_⟩
  · intro c msg
    unfold handle_msg_from_devtools
    split <;> simp
  · intro c msg h
    simp [handle_msg_from_devtools, h]
  · intro c msg h1 h2
    have hsp : splitFirst pausedPat msg = none := by
      unfold containsSub at h2
      cases hx : splitFirst pausedPat msg with
      | none => rfl
      | some p => rw [hx] at h2; simp at h2
    simp [handle_msg_from_devtools, replaceFirst, h1, hsp]
  · intro c msg a b h1 hsp
    refine ⟨splitFirst_sound hsp, fun a2 b2 h2 => splitFirst_min hsp h2, ?_⟩
    simp [handle_msg_from_devtools, replaceFirst, h1, hsp]

/-- A concrete devtools-to-web frame containing the overlay method and two
occurrences of the pause message. -/
def ovRaw : Frame :=
  strL "Overlay.setPausedInDebuggerMessage:Paused in debugger:Paused in debugger"

/-- The part of ovRaw before its first pause-message occurrence. -/
def ovA : Frame := strL "Overlay.setPausedInDebuggerMessage:"

/-- The part of ovRaw after its first pause-message occurrence (a later
occurrence lies inside it and is forwarded unchanged). -/
def ovB : Frame := strL ":Paused in debugger"

/-- Claim C7, witnessed on a frame with two pause-message occurrences:
only the first is replaced, the second travels unchanged inside the
suffix. -/
theorem C7_devtools_handler_witness :
    containsSub overlayPat ovRaw = true ∧
    splitFirst pausedPat ovRaw = some (ovA, ovB) ∧
    (ovRaw = ovA ++ pausedPat ++ ovB ∧
     (∀ a2 b2 : Frame, ovRaw = a2 ++ pausedPat ++ b2 → ovA.length ≤ a2.length) ∧
     handle_msg_from_devtools (NewMyWSConnection "devtools") ovRaw =
       (ovA ++ surpriseStr ++ ovB, true, NewMyWSConnection "devtools")) :=
  ⟨by decide, by decide,
   C7_devtools_handler.2.2.2 (NewMyWSConnection "devtools") ovRaw ovA ovB
     (by decide) (by decide)⟩

/-! ### Claim C8 -/

/-- Claim C8 (counterexample): Read does not always fail after close. On a
fresh connection the precheck passes and the receive blocks (empty open
channel); after Close runs, the pending receive completes successfully
with the zero-value empty frame — and no error — even though is_closed is
true, refuting "it never returns a successful result after close". -/
theorem C8_counterexample :
    read_precheck (NewMyWSConnection "web3") = none ∧
    recv_step (NewMyWSConnection "web3") = RecvOutcome.blocked ∧
    (NewMyWSConnection "web3").Close = some (close1 (NewMyWSConnection "web3"), 1, 1) ∧
    (close1 (NewMyWSConnection "web3")).is_closed = true ∧
    recv_step (close1 (NewMyWSConnection "web3")) =
      RecvOutcome.recv [] (close1 (NewMyWSConnection "web3")) := by
  decide

/-- Claim C8 (amended): Read fails with a closed-connection error when the
connection was already closed at call time; but when the connection closes
while Read is blocked on the empty inbound channel, the pending receive
completes successfully with the zero-value empty frame instead of an
error. -/
theorem C8_read_contract_amended (c : MyWSConnection) :
    (c.is_closed = true → read_precheck c = some (c.name ++ " connection closed")) ∧
    (c.is_closed = false → c.sender_open = true → c.reciver_open = true →
      c.msg_reciver = [] →
      recv_step c = RecvOutcome.blocked ∧
      c.Close = some (close1 c, 1, 1) ∧
      (close1 c).is_closed = true ∧
      recv_step (close1 c) = RecvOutcome.recv [] (close1 c)) := by
  constructor
  · intro h
    simp [read_precheck, MyWSConnection.is_Closed, h]
  · intro h hs hr he
    refine ⟨?_, ?_, rfl, ?_⟩
    · simp [recv_step, he, hr]
    · simp [MyWSConnection.Close, chanClose, h, hs, hr, close1]
    · simp [recv_step, close1, he]

/-- Claim C8 amended, witnessed on concrete connections: a closed
connection's precheck errors, and a fresh connection's blocked receive
completes with the empty frame after Close. -/
theorem C8_read_contract_witness :
    read_precheck (close1 (NewMyWSConnection "web4")) = some "web4 connection closed" ∧
    (recv_step (NewMyWSConnection "web4") = RecvOutcome.blocked ∧
     (NewMyWSConnection "web4").Close = some (close1 (NewMyWSConnection "web4"), 1, 1) ∧
     (close1 (NewMyWSConnection "web4")).is_closed = true ∧
     recv_step (close1 (NewMyWSConnection "web4")) =
       RecvOutcome.recv [] (close1 (NewMyWSConnection "web4"))) :=
  ⟨(C8_read_contract_amended (close1 (NewMyWSConnection "web4"))).1 rfl,
   (C8_read_contract_amended (NewMyWSConnection "web4")).2 rfl rfl rfl rfl⟩

/-! ### Claim C10 -/

/-- Iterated Close: n successive Close invocations, accumulating the
number of channel close() operations performed on msg_sender and on
msg_reciver; none means some invocation panicked. -/
def closeN : Nat → MyWSConnection → Option (MyWSConnection × Nat × Nat)
  | 0, c => some (c, 0, 0)
  | n + 1, c =>
    match c.Close with
    | none => none
    | some (c', s, r) =>
      match closeN n c' with
      | none => none
      | some (c'', s', r') => some (c'', s + s', r + r')

/-- Close on an already-closed connection with a closed socket is a no-op:
no panic, no channel close, unchanged state. -/
theorem Close_of_closed {d : MyWSConnection} (h : d.is_closed = true)
    (hso : d.sock_open = false) : d.Close = some (d, 0, 0) := by
  unfold MyWSConnection.Close
  rw [if_pos h]
  have hd : { d with sock_open := false } = d := by
    cases d
    simp_all
  rw [hd]

/-- Iterating Close on an already-closed connection performs no channel
close and never panics. -/
theorem closeN_of_closed {d : MyWSConnection} (h : d.is_closed = true)
    (hso : d.sock_open = false) : ∀ n, closeN n d = some (d, 0, 0) := by
  intro n
  induction n with
  | zero => rfl
  | succ n ih =>
    unfold closeN
    rw [Close_of_closed h hso]
    simp [ih]

/-- Claim C10: on a well-formed open connection (fresh from
NewMyWSConnection: flag false, both channels open), any number n+1 of
Close calls yields the same state as a single call, never panics
(the result is some), closes each of the two channels exactly once in
total, and reaches a state whose closed flag is true and from which every
further Close is a no-op that keeps the flag true. -/
theorem C10_close_idempotent (c : MyWSConnection) (n : Nat)
    (hopen : c.is_closed = false) (hs : c.sender_open = true)
    (hr : c.reciver_open = true) :
    closeN (n + 1) c = some (close1 c, 1, 1) ∧
    closeN 1 c = closeN (n + 1) c ∧
    (close1 c).is_closed = true ∧
    (close1 c).Close = some (close1 c, 0, 0) := by
  have h1 : c.Close = some (close1 c, 1, 1) := by
    simp [MyWSConnection.Close, chanClose, hopen, hs, hr, close1]
  have h2 : ∀ m, closeN m (close1 c) = some (close1 c, 0, 0) :=
    closeN_of_closed rfl rfl
  have h3 : ∀ m, closeN (m + 1) c = some (close1 c, 1, 1) := by
    intro m
    unfold closeN
    rw [h1]
    simp [h2 m]
  exact ⟨h3 n, by rw [h3 0, h3 n], rfl, Close_of_closed rfl rfl⟩

/-- Claim C10, witnessed on a fresh connection closed three times: same
result as one Close, no panic, each channel closed once. -/
theorem C10_close_idempotent_witness :
    closeN 3 (NewMyWSConnection "devtools") =
      some (close1 (NewMyWSConnection "devtools"), 1, 1) ∧
    closeN 1 (NewMyWSConnection "devtools") = closeN 3 (NewMyWSConnection "devtools") ∧
    (close1 (NewMyWSConnection "devtools")).is_closed = true ∧
    (close1 (NewMyWSConnection "devtools")).Close =
      some (close1 (NewMyWSConnection "devtools"), 0, 0) :=
  C10_close_idempotent (NewMyWSConnection "devtools") 2 rfl rfl rfl
